import Mathlib

/-!
Shallow embedding of the address-routing application
(src/src/App.tsx, src/src/components/MapComponent.tsx,
src/unnamed/part_002 type declarations, src/unnamed/part_003 routeService).

Optional numbers (`latitude?: number`) are modelled as `Option Int`;
JavaScript truthiness of such a value (`!addr.latitude`) is `truthy` below
(absent and `0` are both falsy).  Boolean flags that may be `undefined`
in TypeScript are modelled as `Bool` with `undefined ↦ false`.
-/

/-- An `Address` record, from `src/unnamed/part_002` (`types/index.ts`). -/
structure Address where
  id : String
  businessName : String
  address : String
  latitude : Option Int
  longitude : Option Int
  isSelected : Bool
  isOnRoute : Bool
  isDuplicate : Bool
  isHighlighted : Bool
deriving DecidableEq, Repr

/-- The `StartingPoint` record, from `src/unnamed/part_002`. -/
structure StartingPoint where
  address : String
  latitude : Option Int
  longitude : Option Int
  isValid : Bool
deriving DecidableEq, Repr

/-- Opaque stand-in for `google.maps.DirectionsResult`. -/
structure RouteResult where
  token : Nat
deriving DecidableEq, Repr

/-- The App-level state relevant to the route workflow
(the `useState` cells of `App.tsx`). -/
structure AppState where
  addresses : List Address
  startingPoint : StartingPoint
  isCreatingRoute : Bool
  currentRoute : Option RouteResult
  hasRoute : Bool
  mapKey : Nat
deriving DecidableEq, Repr

/-- JavaScript truthiness of an optional number: `undefined` and `0` are falsy. -/
def truthy : Option Int → Bool
  | none => false
  | some v => v != 0

/-- Normalized duplicate key: `addr.address.toLowerCase().trim()` (App.tsx line 58). -/
def normKey (a : Address) : String := a.address.toLower.trim

/-- The `detectDuplicates` function of App.tsx (lines 54-69): a record's
`isDuplicate` is set from the size of the group of records sharing its
normalized key. -/
def detectDuplicates (addressList : List Address) : List Address :=
  addressList.map (fun addr =>
    { addr with
      isDuplicate :=
        decide (1 < (addressList.filter (fun b => normKey b == normKey addr)).length) })

/-- Ingestion (`handleFileUpload` / `handleTabDelimitedSubmit`, App.tsx lines 72-96):
append the parsed rows to the previous store and recompute duplicate flags. -/
def ingest (prev parsed : List Address) : List Address :=
  detectDuplicates (prev ++ parsed)

/-- A `Partial<Address>` patch: `none` means the field is absent from the patch. -/
structure AddressPatch where
  businessName : Option String
  address : Option String
  latitude : Option (Option Int)
  longitude : Option (Option Int)
  isSelected : Option Bool
  isOnRoute : Option Bool
  isDuplicate : Option Bool
  isHighlighted : Option Bool
deriving DecidableEq, Repr

/-- The empty patch. -/
def AddressPatch.empty : AddressPatch :=
  ⟨none, none, none, none, none, none, none, none⟩

/-- Field-wise application of a partial patch (the TS spread `{ ...addr, ...updates }`). -/
def applyPatch (addr : Address) (p : AddressPatch) : Address :=
  { addr with
    businessName := p.businessName.getD addr.businessName
    address := p.address.getD addr.address
    latitude := p.latitude.getD addr.latitude
    longitude := p.longitude.getD addr.longitude
    isSelected := p.isSelected.getD addr.isSelected
    isOnRoute := p.isOnRoute.getD addr.isOnRoute
    isDuplicate := p.isDuplicate.getD addr.isDuplicate
    isHighlighted := p.isHighlighted.getD addr.isHighlighted }

/-- The `handleUpdateAddress` handler (App.tsx lines 140-146): the record whose id
matches gets the patch applied and `isHighlighted := false`; every other record
also gets `isHighlighted := false`. -/
def handleUpdateAddress (id : String) (updates : AddressPatch)
    (prev : List Address) : List Address :=
  prev.map (fun addr =>
    if addr.id == id then { applyPatch addr updates with isHighlighted := false }
    else { addr with isHighlighted := false })

/-- The `handleDeleteAddress` handler (App.tsx lines 148-150). -/
def handleDeleteAddress (id : String) (prev : List Address) : List Address :=
  prev.filter (fun addr => addr.id != id)

/-- The `handlePolygonComplete` handler (App.tsx lines 191-197): `isSelected` and
`isHighlighted` are both set to membership (by id) in the selected subset. -/
def handlePolygonComplete (selectedSubset : List Address)
    (prev : List Address) : List Address :=
  prev.map (fun addr =>
    { addr with
      isSelected := selectedSubset.any (fun s => s.id == addr.id)
      isHighlighted := selectedSubset.any (fun s => s.id == addr.id) })

/-- The filter inside `handleAcceptPolygon` (MapComponent.tsx lines 204-208):
`if (!address.latitude || !address.longitude) return false;` then the geometric
containment test is applied to the coordinate values.  The containment test
(`google.maps.geometry.poly.containsLocation`) is an external collaborator,
abstracted as the predicate `contains`. -/
def acceptPolygonSelection (contains : Int → Int → Bool)
    (addresses : List Address) : List Address :=
  addresses.filter (fun address =>
    if !(truthy address.latitude) || !(truthy address.longitude) then false
    else contains (address.latitude.getD 0) (address.longitude.getD 0))

/-- Full region selection: the subset computed by `handleAcceptPolygon` is passed
to `handlePolygonComplete` via `onPolygonComplete`. -/
def selectByRegion (contains : Int → Int → Bool)
    (addresses : List Address) : List Address :=
  handlePolygonComplete (acceptPolygonSelection contains addresses) addresses

/-- The `handleStartingAddressChange` handler (App.tsx lines 200-208): replaces
the text, forces `isValid := false` and clears both coordinates. -/
def handleStartingAddressChange (address : String)
    (prev : StartingPoint) : StartingPoint :=
  { prev with
    address := address
    isValid := false
    latitude := none
    longitude := none }

/-- Outcome of one call to the geocoding adapter (`geocodeAddress`):
a coordinate pair, a null result, or a thrown error. -/
inductive GeocodeOutcome where
  | found (lat lng : Int)
  | notFound
  | errored
deriving DecidableEq, Repr

/-- The `handleGeocodeStartingPoint` handler (App.tsx lines 210-235).  The second
component records whether the geocoding adapter was invoked at all: with an
empty address text the handler returns before calling it. -/
def handleGeocodeStartingPoint (sp : StartingPoint)
    (adapter : GeocodeOutcome) : StartingPoint × Bool :=
  if sp.address.isEmpty then (sp, false)
  else
    match adapter with
    | .found lat lng =>
        ({ sp with latitude := some lat, longitude := some lng, isValid := true }, true)
    | .notFound => ({ sp with isValid := false }, true)
    | .errored => ({ sp with isValid := false }, true)

/-- The `selectedAddresses` memo of App.tsx (lines 38-41). -/
def selectedAddresses (addresses : List Address) : List Address :=
  addresses.filter (fun addr => addr.isSelected)

/-- Outcome of the create-route trigger: either one of the three alert messages,
or the transition to the requested (busy) state. -/
inductive CreateRouteOutcome where
  | invalidStartingPoint (msg : String)
  | noSelection (msg : String)
  | tooManyAddresses (msg : String)
  | requested
deriving DecidableEq, Repr

/-- The overflow alert text of `handleCreateRoute` (App.tsx line 260). -/
def tooManyAddressesMessage (n : Nat) : String :=
  "Too many addresses selected (" ++ toString n ++
    "). Google Maps allows a maximum of 25 waypoints per route. Please reduce the number of selected addresses or split into multiple routes."

/-- The `handleCreateRoute` handler (App.tsx lines 247-265): three checks in
order; the first failure alerts and returns with the state untouched; otherwise
`isCreatingRoute` is set. -/
def handleCreateRoute (s : AppState) : AppState × CreateRouteOutcome :=
  if !s.startingPoint.isValid then
    (s, .invalidStartingPoint "Starting point is invalid or not geocoded.")
  else if (selectedAddresses s.addresses).length == 0 then
    (s, .noSelection "Please select addresses by drawing a polygon on the map.")
  else if (selectedAddresses s.addresses).length > 25 then
    (s, .tooManyAddresses (tooManyAddressesMessage (selectedAddresses s.addresses).length))
  else
    ({ s with isCreatingRoute := true }, .requested)

/-- The `handleRouteCreated` success callback (App.tsx lines 267-276).  Its
`setAddresses(prev => ...)` functional update reads `prev`, the store at the
moment the callback runs. -/
def handleRouteCreated (route : RouteResult) (s : AppState) : AppState :=
  { s with
    addresses := s.addresses.map (fun addr => { addr with isOnRoute := addr.isSelected })
    currentRoute := some route
    hasRoute := true
    isCreatingRoute := false }

/-- The `handleClearRoute` handler (App.tsx lines 278-282). -/
def handleClearRoute (s : AppState) : AppState :=
  { s with
    addresses := s.addresses.map (fun addr => { addr with isOnRoute := false })
    currentRoute := none
    hasRoute := false }

/-- The `handleClearPoints` handler (App.tsx lines 284-293); the `mapKey` bump
forces the map presentation to remount. -/
def handleClearPoints (s : AppState) : AppState :=
  { s with
    addresses := s.addresses.map (fun addr =>
      { addr with isSelected := false, isOnRoute := false })
    currentRoute := none
    hasRoute := false
    mapKey := s.mapKey + 1 }

/-- The stops computed inside `createRoute` (MapComponent.tsx lines 359-361):
selected records whose coordinates are truthy. -/
def validStops (addresses : List Address) : List Address :=
  addresses.filter (fun addr =>
    addr.isSelected && truthy addr.latitude && truthy addr.longitude)

/-- The overflow error text thrown inside `createRoute` (MapComponent.tsx line 369). -/
def tooManyWaypointsMessage (n : Nat) : String :=
  "Too many waypoints selected (" ++ toString n ++
    "). Google Maps allows a maximum of 25 waypoints per route. Please reduce the number of selected addresses or split into multiple routes."

/-- Outcome of the routing adapter call (`calculateOptimalRoute`): a resolved
`DirectionsResult` or a rejection message. -/
inductive RoutingOutcome where
  | ok (route : RouteResult)
  | failed (msg : String)
deriving DecidableEq, Repr

/-- The `createRoute` effect body (MapComponent.tsx lines 354-395).
`dispatchAddresses` and `dispatchStart` are the values captured by the effect
closure when the request is dispatched; `completionState` is the App state at
the moment the asynchronous call settles (the store may have been mutated while
the call was pending).  Every failure path (thrown precondition or adapter
rejection) is alerted — the second component is the alerted message — and runs
only the `finally` clause, which clears the busy flag. -/
def createRouteStep (dispatchAddresses : List Address) (dispatchStart : StartingPoint)
    (adapter : RoutingOutcome) (completionState : AppState) :
    AppState × Option String :=
  let stops := validStops dispatchAddresses
  if stops.length == 0 || !(truthy dispatchStart.latitude) ||
      !(truthy dispatchStart.longitude) then
    ({ completionState with isCreatingRoute := false },
      some "No valid addresses or starting point")
  else if stops.length > 25 then
    ({ completionState with isCreatingRoute := false },
      some (tooManyWaypointsMessage stops.length))
  else
    match adapter with
    | .ok route => (handleRouteCreated route completionState, none)
    | .failed msg => ({ completionState with isCreatingRoute := false }, some msg)

/-- The set of records re-enqueued by `handleGeocodeAll` (App.tsx lines 107-109):
`addr.address && (!addr.latitude || !addr.longitude)`. -/
def geocodeAllQueue (addresses : List Address) : List Address :=
  addresses.filter (fun addr =>
    !addr.address.isEmpty && (!(truthy addr.latitude) || !(truthy addr.longitude)))

/-- The records given map markers (MapComponent.tsx line 258):
`addr.latitude && addr.longitude`. -/
def mapMarkers (addresses : List Address) : List Address :=
  addresses.filter (fun addr => truthy addr.latitude && truthy addr.longitude)

/-- The `geocoded` count of the stats effect (App.tsx line 349). -/
def statsGeocoded (addresses : List Address) : Nat :=
  (addresses.filter (fun addr => truthy addr.latitude && truthy addr.longitude)).length

/-- The `errors` count of the stats effect (App.tsx line 350). -/
def statsErrors (addresses : List Address) : Nat :=
  (addresses.filter (fun addr =>
    !addr.address.isEmpty && (!(truthy addr.latitude) || !(truthy addr.longitude)))).length

/-- A base record with all optional fields absent and all flags clear,
used to build concrete test records. -/
def addr0 : Address :=
  { id := "0", businessName := "b", address := "a"
    latitude := none, longitude := none
    isSelected := false, isOnRoute := false
    isDuplicate := false, isHighlighted := false }

/-- A concrete valid starting point. -/
def spValid0 : StartingPoint :=
  { address := "start", latitude := some 2, longitude := some 3, isValid := true }

/-- A concrete App state builder around a given address list. -/
def mkState (addresses : List Address) : AppState :=
  { addresses := addresses, startingPoint := spValid0
    isCreatingRoute := false, currentRoute := none, hasRoute := false, mapKey := 0 }

/-- Pairing a list with its image under a map pairs each element with its
own image. -/
theorem zip_map_self {α β : Type} (g : α → β) (l : List α) :
    l.zip (l.map g) = l.map (fun a => (a, g a)) := by
  induction l with
  | nil => rfl
  | cons x xs ih => simp [ih]

/-- Membership in the pairing of a list with its image under a map. -/
theorem mem_zip_map_self {α β : Type} {g : α → β} {l : List α}
    {p : α × β} (hp : p ∈ l.zip (l.map g)) : p.1 ∈ l ∧ p.2 = g p.1 := by
  rw [zip_map_self] at hp
  obtain ⟨a, ha, rfl⟩ := List.mem_map.mp hp
  exact ⟨ha, rfl⟩

/-- C3: the create-route trigger checks its three preconditions in order
(starting point valid, at least one selection, at most 25 selected); the first
failing check wins, reports its message and leaves the state unchanged; with
more than 25 selected addresses it always fails with the overflow message
containing the exact selected count. -/
theorem createRoute_checks_in_order (s : AppState) :
    (s.startingPoint.isValid = false →
      handleCreateRoute s
        = (s, CreateRouteOutcome.invalidStartingPoint
            "Starting point is invalid or not geocoded."))
    ∧ (s.startingPoint.isValid = true →
        (selectedAddresses s.addresses).length = 0 →
      handleCreateRoute s
        = (s, CreateRouteOutcome.noSelection
            "Please select addresses by drawing a polygon on the map."))
    ∧ (s.startingPoint.isValid = true →
        25 < (selectedAddresses s.addresses).length →
      handleCreateRoute s
        = (s, CreateRouteOutcome.tooManyAddresses
            (tooManyAddressesMessage (selectedAddresses s.addresses).length))
      ∧ ∃ pre post,
          tooManyAddressesMessage (selectedAddresses s.addresses).length
            = pre ++ toString (selectedAddresses s.addresses).length ++ post)
    ∧ (s.startingPoint.isValid = true →
        1 ≤ (selectedAddresses s.addresses).length →
        (selectedAddresses s.addresses).length ≤ 25 →
      handleCreateRoute s = ({ s with isCreatingRoute := true },
        CreateRouteOutcome.requested)) := by
  refine ⟨fun h => by simp [handleCreateRoute, h], fun h h0 => by
    simp [handleCreateRoute, h, h0], fun h h25 => ⟨?_, ?_⟩, fun h h1 h25 => ?_⟩
  · have hne : (selectedAddresses s.addresses).length ≠ 0 := by omega
    simp [handleCreateRoute, h, hne, h25]
  · exact ⟨"Too many addresses selected (",
      "). Google Maps allows a maximum of 25 waypoints per route. Please reduce the number of selected addresses or split into multiple routes.",
      rfl⟩
  · have hne : (selectedAddresses s.addresses).length ≠ 0 := by omega
    have hle : ¬ 25 < (selectedAddresses s.addresses).length := by omega
    simp [handleCreateRoute, h, hne, hle]

/-- Concrete state with 26 selected addresses and a valid starting point. -/
def over26State : AppState := mkState (List.replicate 26 { addr0 with isSelected := true })

/-- Witness for `createRoute_checks_in_order`: with 26 selected addresses and a
valid starting point, create-route fails with the overflow message holding the
count 26. -/
theorem createRoute_checks_in_order_witness :
    handleCreateRoute over26State
      = (over26State, CreateRouteOutcome.tooManyAddresses
          (tooManyAddressesMessage (selectedAddresses over26State.addresses).length))
    ∧ ∃ pre post,
        tooManyAddressesMessage (selectedAddresses over26State.addresses).length
          = pre ++ toString (selectedAddresses over26State.addresses).length ++ post :=
  (createRoute_checks_in_order over26State).2.2.1 rfl (by decide)

/-- C4: clear-route clears `isOnRoute` on every record and discards the route
while preserving `isSelected` and every other field; clear-all-points clears
both `isSelected` and `isOnRoute` on every record, discards the route and bumps
the map remount key.  Each input record is paired with its output record. -/
theorem clearRoute_clearPoints_effects (s : AppState) :
    ((handleClearRoute s).currentRoute = none
      ∧ (handleClearRoute s).hasRoute = false
      ∧ (handleClearRoute s).mapKey = s.mapKey
      ∧ ∀ p ∈ s.addresses.zip (handleClearRoute s).addresses,
          p.2.isOnRoute = false ∧ p.2.isSelected = p.1.isSelected
          ∧ p.2.id = p.1.id ∧ p.2.businessName = p.1.businessName
          ∧ p.2.address = p.1.address ∧ p.2.latitude = p.1.latitude
          ∧ p.2.longitude = p.1.longitude ∧ p.2.isDuplicate = p.1.isDuplicate)
    ∧ ((handleClearPoints s).currentRoute = none
      ∧ (handleClearPoints s).hasRoute = false
      ∧ (handleClearPoints s).mapKey = s.mapKey + 1
      ∧ ∀ p ∈ s.addresses.zip (handleClearPoints s).addresses,
          p.2.isOnRoute = false ∧ p.2.isSelected = false
          ∧ p.2.id = p.1.id ∧ p.2.businessName = p.1.businessName
          ∧ p.2.address = p.1.address ∧ p.2.latitude = p.1.latitude
          ∧ p.2.longitude = p.1.longitude ∧ p.2.isDuplicate = p.1.isDuplicate) := by
  refine ⟨⟨rfl, rfl, rfl, fun p hp => ?_⟩, ⟨rfl, rfl, rfl, fun p hp => ?_⟩⟩
  · simp only [handleClearRoute] at hp
    obtain ⟨-, h2⟩ := mem_zip_map_self hp
    simp [h2]
  · simp only [handleClearPoints] at hp
    obtain ⟨-, h2⟩ := mem_zip_map_self hp
    simp [h2]

/-- C7: update applies the patch to exactly the record with the given id and
clears `isHighlighted` on every record, leaving all other fields of all other
records unchanged. -/
theorem updateAddress_patch_and_dehighlight (id : String) (updates : AddressPatch)
    (prev : List Address) (p : Address × Address)
    (hp : p ∈ prev.zip (handleUpdateAddress id updates prev)) :
    (p.1.id = id → p.2 = { applyPatch p.1 updates with isHighlighted := false })
    ∧ (p.1.id ≠ id → p.2 = { p.1 with isHighlighted := false }) := by
  simp only [handleUpdateAddress] at hp
  obtain ⟨-, h2⟩ := mem_zip_map_self hp
  constructor
  · intro h
    simp [h2, h]
  · intro h
    simp [h2, h]

/-- Witness for `updateAddress_patch_and_dehighlight` at a concrete two-record
store: the record not matching the edited id is exactly de-highlighted. -/
theorem updateAddress_patch_and_dehighlight_witness :
    ({ addr0 with id := "2", isHighlighted := false } : Address)
      = { ({ addr0 with id := "2", isHighlighted := true } : Address)
            with isHighlighted := false } :=
  (updateAddress_patch_and_dehighlight "1" AddressPatch.empty
    [{ addr0 with id := "1" }, { addr0 with id := "2", isHighlighted := true }]
    ({ addr0 with id := "2", isHighlighted := true },
     { addr0 with id := "2", isHighlighted := false })
    (by decide)).2 (by decide)

/-- C8: editing the starting-point address text replaces the text, forces
`isValid := false` and clears both coordinates; the explicit geocode operation
with empty address text changes nothing and never invokes the adapter. -/
theorem startingPoint_edit_and_empty_geocode (text : String) (prev : StartingPoint)
    (sp : StartingPoint) (adapter : GeocodeOutcome) :
    ((handleStartingAddressChange text prev).address = text
      ∧ (handleStartingAddressChange text prev).isValid = false
      ∧ (handleStartingAddressChange text prev).latitude = none
      ∧ (handleStartingAddressChange text prev).longitude = none)
    ∧ (sp.address.isEmpty = true →
        handleGeocodeStartingPoint sp adapter = (sp, false)) := by
  refine ⟨⟨rfl, rfl, rfl, rfl⟩, fun h => ?_⟩
  simp [handleGeocodeStartingPoint, h]

/-- Witness for `startingPoint_edit_and_empty_geocode`: with an empty address
text the geocode handler is the identity and the adapter is not called. -/
theorem startingPoint_edit_and_empty_geocode_witness :
    handleGeocodeStartingPoint { spValid0 with address := "" } GeocodeOutcome.notFound
      = ({ spValid0 with address := "" }, false) :=
  (startingPoint_edit_and_empty_geocode "x" spValid0
    { spValid0 with address := "" } GeocodeOutcome.notFound).2 rfl

/-- C5: region selection selects only records that carry coordinates whose
point the region contains — a record lacking coordinates is never in the
subset — and the accepted region replaces the prior selection entirely:
afterwards a record is selected iff its id is in the newly computed subset. -/
theorem selectByRegion_only_coords_and_replaces
    (contains : Int → Int → Bool) (addresses : List Address) :
    (∀ b ∈ acceptPolygonSelection contains addresses,
      ∃ la lo, b.latitude = some la ∧ b.longitude = some lo ∧ contains la lo = true)
    ∧ ∀ p ∈ addresses.zip (selectByRegion contains addresses),
        p.2.isSelected
          = (acceptPolygonSelection contains addresses).any
              (fun s => s.id == p.1.id) := by
  constructor
  · intro b hb
    rw [acceptPolygonSelection, List.mem_filter] at hb
    obtain ⟨-, hpred⟩ := hb
    cases hla : b.latitude with
    | none => rw [hla] at hpred; simp [truthy] at hpred
    | some la =>
      cases hlo : b.longitude with
      | none => rw [hla, hlo] at hpred; simp [truthy] at hpred
      | some lo =>
        rw [hla, hlo] at hpred
        by_cases h0 : la = 0
        · simp [truthy, h0] at hpred
        · by_cases h1 : lo = 0
          · simp [truthy, h1] at hpred
          · simp [truthy, h0, h1] at hpred
            exact ⟨la, lo, rfl, rfl, hpred⟩
  · intro p hp
    simp only [selectByRegion, handlePolygonComplete] at hp
    obtain ⟨-, h2⟩ := mem_zip_map_self hp
    simp [h2, handlePolygonComplete]

/-- A concrete geocoded record. -/
def coordAddr : Address := { addr0 with latitude := some 5, longitude := some 7 }

/-- Witness for `selectByRegion_only_coords_and_replaces`: the geocoded record
selected by an all-accepting region indeed carries contained coordinates. -/
theorem selectByRegion_only_coords_and_replaces_witness :
    ∃ la lo, coordAddr.latitude = some la ∧ coordAddr.longitude = some lo
      ∧ (fun _ _ => true : Int → Int → Bool) la lo = true :=
  (selectByRegion_only_coords_and_replaces (fun _ _ => true) [coordAddr]).1
    coordAddr (by decide)

/-- A concrete geocoded record carrying a highlight. -/
def hiAddr : Address :=
  { addr0 with latitude := some 1, longitude := some 1, isHighlighted := true }

/-- C6 counterexample: a record with a highlight that falls outside the accepted
region does NOT keep its highlight — region selection overwrites
`isHighlighted` to false on records outside the subset. -/
theorem region_selection_overwrites_highlight :
    ((selectByRegion (fun _ _ => false) [hiAddr]).map
      (fun a => a.isHighlighted)) = [false]
    ∧ hiAddr.isHighlighted = true
    ∧ acceptPolygonSelection (fun _ _ => false) [hiAddr] = [] := by
  decide

/-- C6 amended: region selection sets both `isSelected` and `isHighlighted` to
membership in the computed subset — true on the subset, false (overwritten, not
preserved) on all records outside it — and changes no other field. -/
theorem polygonComplete_sets_selection_and_highlight
    (subset prev : List Address) (p : Address × Address)
    (hp : p ∈ prev.zip (handlePolygonComplete subset prev)) :
    (p.2.isSelected = true ↔ ∃ s ∈ subset, s.id = p.1.id)
    ∧ p.2.isHighlighted = p.2.isSelected
    ∧ p.2.id = p.1.id ∧ p.2.businessName = p.1.businessName
    ∧ p.2.address = p.1.address ∧ p.2.latitude = p.1.latitude
    ∧ p.2.longitude = p.1.longitude ∧ p.2.isOnRoute = p.1.isOnRoute
    ∧ p.2.isDuplicate = p.1.isDuplicate := by
  simp only [handlePolygonComplete] at hp
  obtain ⟨-, h2⟩ := mem_zip_map_self hp
  refine ⟨?_, by simp [h2], by simp [h2], by simp [h2], by simp [h2],
    by simp [h2], by simp [h2], by simp [h2], by simp [h2]⟩
  simp [h2, List.any_eq_true]

/-- Witness for `polygonComplete_sets_selection_and_highlight`: the record
matching the one-element subset comes out selected. -/
theorem polygonComplete_sets_selection_and_highlight_witness :
    ({ addr0 with isSelected := true, isHighlighted := true } : Address).isSelected = true
      ↔ ∃ s ∈ [(addr0 : Address)],
          s.id = ({ addr0 with isHighlighted := true } : Address).id :=
  (polygonComplete_sets_selection_and_highlight [addr0]
    [{ addr0 with isHighlighted := true }]
    ({ addr0 with isHighlighted := true },
     { addr0 with isSelected := true, isHighlighted := true })
    (by decide)).1

/-- Concrete record with address text "x" and id "1". -/
def dupA : Address := { addr0 with id := "1", address := "x" }

/-- Concrete record with address text "x" and id "2". -/
def dupB : Address := { addr0 with id := "2", address := "x" }

/-- Ingesting the two records sharing the key flags both as duplicates. -/
theorem ingest_dup_pair :
    ingest [] [dupA, dupB]
      = [{ dupA with isDuplicate := true }, { dupB with isDuplicate := true }] := by
  simp [ingest, detectDuplicates, normKey, dupA, dupB, addr0, List.filter]

/-- C2 counterexample: deleting one of two duplicates leaves the survivor still
flagged `isDuplicate = true` although no other record shares its key — delete
does not recompute duplicate flags. -/
theorem duplicate_flag_stale_after_delete :
    handleDeleteAddress "1" (ingest [] [dupA, dupB])
      = [{ dupB with isDuplicate := true }]
    ∧ ((handleDeleteAddress "1" (ingest [] [dupA, dupB])).filter
        (fun b => normKey b == normKey { dupB with isDuplicate := true })).length = 1 := by
  rw [ingest_dup_pair]
  constructor
  · simp [handleDeleteAddress, dupA, dupB, addr0]
  · simp [handleDeleteAddress, dupA, dupB, addr0, normKey, List.filter]

/-- C2 amended: the duplicate-flag invariant holds after every ingest — in the
store produced by `ingest`, a record's `isDuplicate` is true iff at least two
records of that store share its normalized key.  (Update and delete do not
recompute the flags, as the counterexample shows.) -/
theorem ingest_duplicate_flag_iff (prev parsed : List Address) (a : Address)
    (ha : a ∈ ingest prev parsed) :
    a.isDuplicate = true ↔
      2 ≤ ((ingest prev parsed).filter (fun b => normKey b == normKey a)).length := by
  simp only [ingest, detectDuplicates] at ha ⊢
  obtain ⟨b, hb, rfl⟩ := List.mem_map.mp ha
  have hlen :
      (((prev ++ parsed).map (fun addr =>
          { addr with
            isDuplicate :=
              decide (1 < ((prev ++ parsed).filter
                (fun c => normKey c == normKey addr)).length) })).filter
        (fun c => normKey c == normKey b)).length
      = ((prev ++ parsed).filter (fun c => normKey c == normKey b)).length := by
    rw [← List.countP_eq_length_filter, ← List.countP_eq_length_filter,
      List.countP_map]
    rfl
  rw [show (normKey { b with
      isDuplicate :=
        decide (1 < ((prev ++ parsed).filter
          (fun c => normKey c == normKey b)).length) }) = normKey b from rfl]
  rw [hlen]
  simp only [decide_eq_true_iff]
  omega

/-- Witness for `ingest_duplicate_flag_iff`: the flagged record of the concrete
duplicate pair satisfies the equivalence. -/
theorem ingest_duplicate_flag_iff_witness :
    ({ dupA with isDuplicate := true } : Address).isDuplicate = true ↔
      2 ≤ ((ingest [] [dupA, dupB]).filter
        (fun b => normKey b == normKey { dupA with isDuplicate := true })).length :=
  ingest_duplicate_flag_iff [] [dupA, dupB] { dupA with isDuplicate := true }
    (by rw [ingest_dup_pair]; simp)

/-- A concrete geocoded record that is selected. -/
def selAddr : Address :=
  { addr0 with id := "1", isSelected := true, latitude := some 1, longitude := some 1 }

/-- The same record deselected (as the store stands at completion time). -/
def deselAddr : Address :=
  { addr0 with id := "1", isSelected := false, latitude := some 1, longitude := some 1 }

/-- C1 counterexample: the record was selected in the store captured at
dispatch time, was deselected while the routing call was pending, and after the
success callback its `isOnRoute` is false — the tagging reads the completion
time store, not the dispatch-time snapshot. -/
theorem route_success_tags_completion_selection :
    ((createRouteStep [selAddr] spValid0 (RoutingOutcome.ok ⟨0⟩)
        (mkState [deselAddr])).1.addresses.map (fun a => a.isOnRoute)) = [false]
    ∧ ([selAddr].map (fun a => a.isSelected)) = [true] := by
  decide

/-- C1 amended: on route success, a record's `isOnRoute` is set to its
`isSelected` value in the store as it stands when the asynchronous call
completes (the functional update reads the then-current store); the RouteResult
is recorded and the workflow becomes active.  When the selection is unchanged
while the call is pending this coincides with the dispatch-time selection. -/
theorem route_success_isOnRoute_from_completion_store
    (dA : List Address) (dSP : StartingPoint) (r : RouteResult) (cs : AppState)
    (h0 : (validStops dA).length ≠ 0)
    (hla : truthy dSP.latitude = true) (hlo : truthy dSP.longitude = true)
    (h25 : (validStops dA).length ≤ 25) :
    (createRouteStep dA dSP (RoutingOutcome.ok r) cs).1.addresses
      = cs.addresses.map (fun a => { a with isOnRoute := a.isSelected })
    ∧ (createRouteStep dA dSP (RoutingOutcome.ok r) cs).1.currentRoute = some r
    ∧ (createRouteStep dA dSP (RoutingOutcome.ok r) cs).1.hasRoute = true := by
  have hb : ((validStops dA).length == 0) = false := by simp [h0]
  have h25n : ¬ (validStops dA).length > 25 := by omega
  simp [createRouteStep, hb, hla, hlo, h25n, handleRouteCreated]

/-- Witness for `route_success_isOnRoute_from_completion_store` on a concrete
one-record dispatch store and completion store. -/
theorem route_success_isOnRoute_from_completion_store_witness :
    (createRouteStep [selAddr] spValid0 (RoutingOutcome.ok ⟨0⟩)
        (mkState [deselAddr])).1.addresses
      = (mkState [deselAddr]).addresses.map (fun a => { a with isOnRoute := a.isSelected })
    ∧ (createRouteStep [selAddr] spValid0 (RoutingOutcome.ok ⟨0⟩)
        (mkState [deselAddr])).1.currentRoute = some ⟨0⟩
    ∧ (createRouteStep [selAddr] spValid0 (RoutingOutcome.ok ⟨0⟩)
        (mkState [deselAddr])).1.hasRoute = true :=
  route_success_isOnRoute_from_completion_store [selAddr] spValid0 ⟨0⟩
    (mkState [deselAddr]) (by decide) (by decide) (by decide) (by decide)

/-- C9: every failure of the pending route request — zero valid stops, missing
starting coordinates, re-violated waypoint cap, or adapter rejection — surfaces
a message, records no RouteResult and leaves the App state exactly as it was at
completion time apart from the cleared busy flag. -/
theorem route_failure_atomic (dA : List Address) (dSP : StartingPoint)
    (adapter : RoutingOutcome) (cs : AppState)
    (h : (validStops dA).length = 0 ∨ truthy dSP.latitude = false
      ∨ truthy dSP.longitude = false ∨ 25 < (validStops dA).length
      ∨ ∃ m, adapter = RoutingOutcome.failed m) :
    (createRouteStep dA dSP adapter cs).1 = { cs with isCreatingRoute := false }
    ∧ ((createRouteStep dA dSP adapter cs).2).isSome = true := by
  rcases h with h | h | h | h | ⟨m, rfl⟩
  · simp [createRouteStep, h]
  · simp [createRouteStep, h]
  · simp [createRouteStep, h]
  · by_cases hc : ((validStops dA).length == 0 || !(truthy dSP.latitude)
        || !(truthy dSP.longitude)) = true
    · simp [createRouteStep, hc]
    · simp only [Bool.not_eq_true] at hc
      simp [createRouteStep, hc, h]
  · by_cases hc : ((validStops dA).length == 0 || !(truthy dSP.latitude)
        || !(truthy dSP.longitude)) = true
    · simp [createRouteStep, hc]
    · simp only [Bool.not_eq_true] at hc
      by_cases h25 : (validStops dA).length > 25
      · simp [createRouteStep, hc, h25]
      · simp [createRouteStep, hc, h25]

/-- Witness for `route_failure_atomic`: an adapter rejection over an empty
dispatch store only clears the busy flag and surfaces a message. -/
theorem route_failure_atomic_witness :
    (createRouteStep [] spValid0 (RoutingOutcome.failed "boom") (mkState [addr0])).1
      = { mkState [addr0] with isCreatingRoute := false }
    ∧ ((createRouteStep [] spValid0 (RoutingOutcome.failed "boom")
        (mkState [addr0])).2).isSome = true :=
  route_failure_atomic [] spValid0 (RoutingOutcome.failed "boom") (mkState [addr0])
    (Or.inl (by decide))

/-- C10: a record whose latitude or longitude is exactly 0 is classified as not
geocoded by every truthiness test in the program — it is re-enqueued by
geocode-all, excluded from map markers and from polygon selection, counted in
the stats error filter and not in the geocoded filter. -/
theorem zero_coordinate_treated_as_absent
    (addresses : List Address) (a : Address) (contains : Int → Int → Bool)
    (ha : a ∈ addresses)
    (hzero : a.latitude = some 0 ∨ a.longitude = some 0)
    (haddr : a.address.isEmpty = false) :
    a ∈ geocodeAllQueue addresses
    ∧ a ∉ mapMarkers addresses
    ∧ a ∉ acceptPolygonSelection contains addresses
    ∧ 0 < statsErrors addresses
    ∧ a ∉ addresses.filter (fun r => truthy r.latitude && truthy r.longitude) := by
  have htr : truthy a.latitude = false ∨ truthy a.longitude = false := by
    rcases hzero with h | h
    · exact Or.inl (by simp [truthy, h])
    · exact Or.inr (by simp [truthy, h])
  have hqueue : a ∈ geocodeAllQueue addresses := by
    rw [geocodeAllQueue, List.mem_filter]
    refine ⟨ha, ?_⟩
    rcases htr with h | h
    · simp [haddr, h]
    · simp [haddr, h]
  refine ⟨hqueue, ?_, ?_, ?_, ?_⟩
  · rw [mapMarkers, List.mem_filter]
    rintro ⟨-, hpred⟩
    rcases htr with h | h <;> simp [h] at hpred
  · rw [acceptPolygonSelection, List.mem_filter]
    rintro ⟨-, hpred⟩
    rcases htr with h | h <;> simp [h] at hpred
  · rw [statsErrors]
    have := List.length_pos_of_mem (by
      rw [geocodeAllQueue] at hqueue
      exact hqueue)
    exact this
  · rw [List.mem_filter]
    rintro ⟨-, hpred⟩
    rcases htr with h | h <;> simp [h] at hpred

/-- A concrete record sitting on the equator (latitude exactly 0). -/
def equatorAddr : Address :=
  { addr0 with id := "9", address := "equator", latitude := some 0, longitude := some 5 }

/-- Witness for `zero_coordinate_treated_as_absent` at the concrete
equator record. -/
theorem zero_coordinate_treated_as_absent_witness :
    equatorAddr ∈ geocodeAllQueue [equatorAddr]
    ∧ equatorAddr ∉ mapMarkers [equatorAddr]
    ∧ equatorAddr ∉ acceptPolygonSelection (fun _ _ => true) [equatorAddr]
    ∧ 0 < statsErrors [equatorAddr]
    ∧ equatorAddr ∉ [equatorAddr].filter
        (fun r => truthy r.latitude && truthy r.longitude) :=
  zero_coordinate_treated_as_absent [equatorAddr] equatorAddr (fun _ _ => true)
    (by decide) (Or.inl (by decide)) (by decide)

/-- Witness for `clearRoute_clearPoints_effects`: clearing the route on a
one-record store clears `isOnRoute` and preserves the selection and every
other field of that record. -/
theorem clearRoute_clearPoints_effects_witness :
    selAddr.isOnRoute = false
    ∧ selAddr.isSelected = ({ selAddr with isOnRoute := true } : Address).isSelected
    ∧ selAddr.id = ({ selAddr with isOnRoute := true } : Address).id
    ∧ selAddr.businessName = ({ selAddr with isOnRoute := true } : Address).businessName
    ∧ selAddr.address = ({ selAddr with isOnRoute := true } : Address).address
    ∧ selAddr.latitude = ({ selAddr with isOnRoute := true } : Address).latitude
    ∧ selAddr.longitude = ({ selAddr with isOnRoute := true } : Address).longitude
    ∧ selAddr.isDuplicate = ({ selAddr with isOnRoute := true } : Address).isDuplicate :=
  (clearRoute_clearPoints_effects
    (mkState [{ selAddr with isOnRoute := true }])).1.2.2.2
    ({ selAddr with isOnRoute := true }, selAddr) (by decide)
